import Mathlib

/-!
# InstanceHub: the instance-control endpoint and the remote-shell bridge

A shallow embedding of `src/app/api/aws/route.js` (the `POST` handler), of
`src/app/api/ssh/route.js` (the `GET` handler and the callbacks it registers)
and of the activity log of `src/app/page.js` (`addLog`).

The cloud provider client, the shell client and the file system are external
collaborators: they appear as oracles (functions handed to the handler) and
every call the handler makes to them is recorded in a log, so that "no provider
call" and "exactly one provider call" are statements about that log.
-/

namespace InstanceHub

/-! ## Values of the JavaScript runtime -/

/-- A value produced by `JSON.parse`. Numbers are kept as integers: the handler
observes a number only through its truthiness (zero or not) and otherwise
passes it on unchanged. An object is its member list in source order. -/
inductive Json where
  | null
  | bool (b : Bool)
  | num (n : Int)
  | str (s : String)
  | arr (items : List Json)
  | obj (members : List (String × Json))

/-- A thrown `Error` object: the two fields the handlers read. -/
structure JsError where
  message : String
  stack : String
deriving DecidableEq, Repr

/-- Property read `v.key` on a parsed JSON value other than `null`; `none` is
`undefined`. Only objects carry own properties named by the keys read here;
when a key is repeated in the JSON text the last member wins. -/
def getProp (v : Json) (key : String) : Option Json :=
  match v with
  | .obj members => (members.reverse.find? (fun m => m.1 == key)).map (fun m => m.2)
  | _ => none

/-- JavaScript truthiness of a possibly `undefined` JSON value: `!v` is its negation. -/
def truthy : Option Json → Bool
  | none => false
  | some .null => false
  | some (.bool b) => b
  | some (.num n) => n != 0
  | some (.str s) => s != ""
  | some (.arr _) => true
  | some (.obj _) => true

/-- The comparison `v === 'literal'` made by the `switch` statement. -/
def strictEqStr (v : Option Json) (literal : String) : Bool :=
  match v with
  | some (.str s) => s == literal
  | _ => false

/-- Whether the character list `text` begins with `pat`. -/
def startsWith : List Char → List Char → Bool
  | [], _ => true
  | _ :: _, [] => false
  | p :: ps, c :: cs => p == c && startsWith ps cs

/-- Whether `pat` occurs somewhere in `text`. -/
def includesChars (pat : List Char) : List Char → Bool
  | [] => startsWith pat []
  | c :: cs => startsWith pat (c :: cs) || includesChars pat cs

/-- The string method `text.includes(pat)`. -/
def includes (text pat : String) : Bool :=
  includesChars pat.data text.data

/-! ## The provider and its replies -/

/-- A tag of an instance. -/
structure Tag where
  Key : String
  Value : String
deriving DecidableEq, Repr

/-- The `State` member of an instance. -/
structure InstanceState where
  Name : String
deriving DecidableEq, Repr

/-- An instance as the provider reports it; `Tags` may be absent. -/
structure Instance where
  InstanceId : String
  State : InstanceState
  InstanceType : String
  Tags : Option (List Tag)
deriving DecidableEq, Repr

/-- A reservation of the provider's reply. -/
structure Reservation where
  Instances : List Instance
deriving DecidableEq, Repr

/-- The commands the endpoint sends through `ec2Client.send`. The identifier
list of a lifecycle command holds whatever value the request carried. -/
inductive Command where
  | DescribeInstances
  | StartInstances (InstanceIds : List Json)
  | StopInstances (InstanceIds : List Json)

/-- The provider seen from one request: what `ec2Client.send` answers to each
command, either a reply or a thrown error. -/
structure Provider where
  describeInstances : Except JsError (List Reservation)
  startInstances : List Json → Except JsError Unit
  stopInstances : List Json → Except JsError Unit

/-! ## Requests and responses of the instance-control endpoint -/

/-- An incoming request: the `content-type` header (`none` when the header is
absent) and the outcome of `request.json()` (`none` when it rejects because
the body is not parsable JSON). -/
structure Request where
  contentType : Option String
  body : Option Json

/-- One element of the `list` response. -/
structure Descriptor where
  id : String
  state : String
  type_ : String
  name : String
deriving DecidableEq, Repr

/-- The JSON body of a response. In `failure` the `error` member is `none`
when its value is `undefined`, in which case the serialised body omits it. -/
inductive Body where
  | instances (descriptors : List Descriptor)
  | message (text : String)
  | failure (text : String) (error : Option String)
deriving DecidableEq, Repr

/-- A response built by `NextResponse.json`; the status defaults to 200. -/
structure Response where
  status : Nat
  body : Body
deriving DecidableEq, Repr

/-- The part of the runtime the handler depends on: the `NODE_ENV` variable
and the `TypeError` the engine raises when `null` is destructured. -/
structure Runtime where
  NODE_ENV : Option String
  nullDestructure : JsError

/-- Line 43: `instance.Tags?.find(tag => tag.Key === 'Name')?.Value || 'Unnamed'`. -/
def displayName (i : Instance) : String :=
  match (i.Tags.bind (fun tags => tags.find? (fun tag => tag.Key == "Name"))).map (fun tag => tag.Value) with
  | some v => if v = "" then "Unnamed" else v
  | none => "Unnamed"

/-- Lines 39-44: the descriptor built from one instance. -/
def describe (i : Instance) : Descriptor :=
  { id := i.InstanceId, state := i.State.Name, type_ := i.InstanceType, name := displayName i }

/-- Lines 38-45: `Reservations.flatMap(r => r.Instances.map(...))`. -/
def listInstances (Reservations : List Reservation) : List Descriptor :=
  Reservations.flatMap (fun reservation => reservation.Instances.map describe)

/-- Line 16: `!contentType || !contentType.includes('application/json')`. -/
def rejectsContentType (contentType : Option String) : Bool :=
  match contentType with
  | none => true
  | some c => c == "" || !(includes c "application/json")

/-- Lines 29-70: the validation of the two destructured fields and the
`switch` on `action`. The result is the list of provider calls made, in order,
and either the response returned or the error thrown. -/
def dispatch (ec2Client : Provider) (action instanceId : Option Json) :
    List Command × Except JsError Response :=
  if !(truthy action) then
    ([], .ok ⟨400, .message "Action is required"⟩)
  else if strictEqStr action "list" then
    match ec2Client.describeInstances with
    | .error e => ([.DescribeInstances], .error e)
    | .ok Reservations =>
      ([.DescribeInstances], .ok ⟨200, .instances (listInstances Reservations)⟩)
  else if strictEqStr action "start" then
    match instanceId with
    | none => ([], .ok ⟨400, .message "Instance ID is required for start action"⟩)
    | some v =>
      if !(truthy (some v)) then
        ([], .ok ⟨400, .message "Instance ID is required for start action"⟩)
      else
        match ec2Client.startInstances [v] with
        | .error e => ([.StartInstances [v]], .error e)
        | .ok _ => ([.StartInstances [v]], .ok ⟨200, .message "Instance starting"⟩)
  else if strictEqStr action "stop" then
    match instanceId with
    | none => ([], .ok ⟨400, .message "Instance ID is required for stop action"⟩)
    | some v =>
      if !(truthy (some v)) then
        ([], .ok ⟨400, .message "Instance ID is required for stop action"⟩)
      else
        match ec2Client.stopInstances [v] with
        | .error e => ([.StopInstances [v]], .error e)
        | .ok _ => ([.StopInstances [v]], .ok ⟨200, .message "Instance stopping"⟩)
  else
    ([], .ok ⟨400, .message "Invalid action"⟩)

/-- Lines 14-70, the body of the outer `try`. Destructuring `null` on line 27
throws; every other parsed value yields the two fields, `undefined` when the
value has no such property. -/
def tryBlock (rt : Runtime) (ec2Client : Provider) (request : Request) :
    List Command × Except JsError Response :=
  if rejectsContentType request.contentType then
    ([], .ok ⟨400, .message "Content-Type must be application/json"⟩)
  else
    match request.body with
    | none => ([], .ok ⟨400, .message "Invalid JSON payload"⟩)
    | some .null => ([], .error rt.nullDestructure)
    | some body => dispatch ec2Client (getProp body "action") (getProp body "instanceId")

/-- Lines 71-77: the response built by the `catch` clause. -/
def catchBlock (rt : Runtime) (error : JsError) : Response :=
  ⟨500, .failure error.message
    (if rt.NODE_ENV = some "development" then some error.stack else none)⟩

/-- The handler `POST`: the provider calls it made and the response it returned. -/
def POST (rt : Runtime) (ec2Client : Provider) (request : Request) :
    List Command × Response :=
  match tryBlock rt ec2Client request with
  | (calls, .ok response) => (calls, response)
  | (calls, .error e) => (calls, catchBlock rt e)

/-! ## The remote-shell bridge (`src/app/api/ssh/route.js`) -/

/-- The calls the bridge is written to make on its collaborators, in the order
it makes them: the connection upgrade (line 29), the provider lookup (line 34),
`ssh.connect` (line 36), `ssh.shell` (line 48), the two pipes (line 56),
`socket.write`, `socket.end` and `ssh.end`. The host of `connect` is `none`
when the reply has no `PublicDnsName`. -/
inductive Effect where
  | upgrade
  | lookup (InstanceId : String)
  | connect (host : Option String) (username privateKey : String)
  | shell
  | pipe
  | socketWrite (data : String)
  | socketEnd
  | sshEnd
deriving DecidableEq, Repr

/-- What the bridge reads from its environment: the variable `EC2_KEY_PATH`
(`none` when unset), the outcome of `fs.readFileSync` on its value, whether
`ssh.connect` returns or throws on its arguments, and the two errors of the
engine: the `ReferenceError` for a name bound nowhere and the `TypeError` for a
property read on `undefined`. -/
structure ShellConfig where
  EC2_KEY_PATH : Option String
  readFileSync : Option String → Except JsError String
  connect : Option String → String → String → Except JsError Unit
  referenceError : JsError
  typeError : JsError

/-- The request of the remote-shell endpoint: `searchParams.get('instanceId')`,
`none` when the query has no such parameter. -/
structure ShellRequest where
  instanceId : Option String

/-- How a call of `GET` ends: it returns a plain response with a status and a
text body, or it throws. -/
inductive GetResult where
  | plain (status : Nat) (text : String)
  | thrown (error : JsError)
deriving DecidableEq, Repr

/-- The state of one bridge: the calls made so far and which callbacks can
still run. The lookup promise settles once; the shell client emits events only
after `ssh.connect`; the callback of `ssh.shell` runs only after `ssh.shell`;
the `close` handler exists only on a stream that was handed over. -/
structure Session where
  effects : List Effect
  lookupPending : Bool
  connectCalled : Bool
  shellRequested : Bool
  streamOpen : Bool
deriving DecidableEq, Repr

/-- The bridge that was never set up: nothing called, nothing pending. -/
def Session.idle : Session :=
  { effects := [], lookupPending := false, connectCalled := false,
    shellRequested := false, streamOpen := false }

/-- The bridge as lines 29-34 and 47-68 are written to leave it: the connection
upgraded, the lookup of `instanceId` sent and not yet settled, the handlers of
the shell client registered. -/
def Session.started (instanceId : String) : Session :=
  { effects := [.upgrade, .lookup instanceId], lookupPending := true,
    connectCalled := false, shellRequested := false, streamOpen := false }

/-- The test `!value` on a string that may be `null` or `undefined`. -/
def falsyStr : Option String → Bool
  | none => true
  | some v => v == ""

/-- The handler `GET`, lines 16-70: how the call ends and the bridge it leaves
behind. Line 29 reads `Upgrade`, a name that the file neither imports nor
declares: reading it throws, before any call is made, so a request that passes
both tests of lines 17 and 24 ends in an exception and leaves no bridge. -/
def GET (env : ShellConfig) (request : ShellRequest) : GetResult × Session :=
  if falsyStr env.EC2_KEY_PATH then
    (.plain 500 "EC2 key not configured", Session.idle)
  else
    match request.instanceId with
    | none => (.plain 400 "Instance ID required", Session.idle)
    | some instanceId =>
      if falsyStr (some instanceId) then
        (.plain 400 "Instance ID required", Session.idle)
      else
        (.thrown env.referenceError, Session.idle)

/-- The `Instance` member of the lookup reply. -/
structure InstanceInfo where
  PublicDnsName : Option String
deriving DecidableEq, Repr

/-- The reply of the lookup, `data` on line 35; `Instance` may be absent. -/
structure InstanceData where
  Instance : Option InstanceInfo
deriving DecidableEq, Repr

/-- What can happen to a bridge once it is set up. -/
inductive Event where
  | lookupResolved (data : InstanceData)
  | lookupRejected (err : JsError)
  | ready
  | shellFailed (err : JsError)
  | shellOpened
  | streamClose
  | sshError (err : JsError)
deriving DecidableEq, Repr

/-- Lines 42-45, the `catch` callback of the lookup chain. -/
def onLookupFailure (s : Session) (err : JsError) : Session :=
  { s with
    effects := s.effects ++
      [.socketWrite ("Failed to get instance data: " ++ err.message), .socketEnd],
    lookupPending := false }

/-- Lines 35-41, the `then` callback of the lookup, followed by the `catch`
callback of the same chain when it throws. The argument of `ssh.connect` is
evaluated member by member: `data.Instance.PublicDnsName` throws when
`data.Instance` is absent, then `readFileSync` may throw, then `ssh.connect`
is called and may throw itself. -/
def onLookupResolved (env : ShellConfig) (s : Session) (data : InstanceData) : Session :=
  match data.Instance with
  | none => onLookupFailure s env.typeError
  | some info =>
    match env.readFileSync env.EC2_KEY_PATH with
    | .error err => onLookupFailure s err
    | .ok privateKey =>
      match env.connect info.PublicDnsName "ec2-user" privateKey with
      | .error err =>
        onLookupFailure
          { s with effects := s.effects ++ [.connect info.PublicDnsName "ec2-user" privateKey] }
          err
      | .ok _ =>
        { s with
          effects := s.effects ++ [.connect info.PublicDnsName "ec2-user" privateKey],
          lookupPending := false, connectCalled := true }

/-- Lines 58-61, the `close` handler of the stream. -/
def onStreamClose (s : Session) : Session :=
  { s with effects := s.effects ++ [.sshEnd, .socketEnd], streamOpen := false }

/-- Lines 65-68, the `error` handler of the shell client. -/
def onSshError (s : Session) (err : JsError) : Session :=
  { s with
    effects := s.effects ++ [.socketWrite ("SSH Error: " ++ err.message), .socketEnd] }

/-- The callback that runs on an event, `none` when the event cannot occur in
the state: lines 35-45 for the settled lookup, lines 47-48 for `ready`, lines
49-53 and 55-61 for the callback of `ssh.shell`, lines 58-61 for the `close`
of the stream, lines 65-68 for an `error` of the shell client. -/
def step (env : ShellConfig) (s : Session) : Event → Option Session
  | .lookupResolved data =>
    if s.lookupPending then some (onLookupResolved env s data) else none
  | .lookupRejected err =>
    if s.lookupPending then some (onLookupFailure s err) else none
  | .ready =>
    if s.connectCalled then
      some { s with effects := s.effects ++ [.shell], shellRequested := true }
    else none
  | .shellFailed err =>
    if s.shellRequested then
      some { s with
        effects := s.effects ++
          [.socketWrite ("Failed to start shell: " ++ err.message), .socketEnd],
        shellRequested := false }
    else none
  | .shellOpened =>
    if s.shellRequested then
      some { s with effects := s.effects ++ [.pipe], shellRequested := false,
                    streamOpen := true }
    else none
  | .streamClose =>
    if s.streamOpen then some (onStreamClose s) else none
  | .sshError err =>
    if s.connectCalled then some (onSshError s err) else none

/-- The bridge after a sequence of events, `none` when the sequence cannot occur. -/
def run (env : ShellConfig) (s : Session) : List Event → Option Session
  | [] => some s
  | ev :: evs =>
    match step env s ev with
    | none => none
    | some s1 => run env s1 evs

/-! ## The activity log of the dashboard (`src/app/page.js`) -/

/-- An entry of the activity log. -/
structure LogEntry where
  message : String
  type_ : String
  timestamp : String
deriving DecidableEq, Repr

/-- Lines 20-27: the value of `logs` after `addLog(message, type)`, from the
value before it. `timestamp` is the reading `new Date().toISOString()` of the
clock; `type_` is `none` when the argument is omitted or `undefined`, and the
parameter then defaults to `info`; `slice(0, 100)` keeps the first 100
elements. -/
def addLog (timestamp message : String) (type_ : Option String)
    (prevLogs : List LogEntry) : List LogEntry :=
  ([({ message := message, type_ := type_.getD "info", timestamp := timestamp } : LogEntry)]
    ++ prevLogs).take 100

/-- One call of `addLog`: its arguments and the clock reading it took. -/
structure LogCall where
  timestamp : String
  message : String
  type_ : Option String
deriving DecidableEq, Repr

/-- The entry a call of `addLog` puts in front of the log. -/
def LogCall.entry (c : LogCall) : LogEntry :=
  { message := c.message, type_ := c.type_.getD "info", timestamp := c.timestamp }

/-- The value of `logs` after the calls of `addLog` in `calls`, oldest first,
from the initial state `useState([])` of line 16. -/
def logsAfter (calls : List LogCall) : List LogEntry :=
  calls.foldl (fun logs c => addLog c.timestamp c.message c.type_ logs) []

/-- Whether the request carries a JSON content type: the header is present and
its value contains `application/json`. -/
def jsonContentType (request : Request) : Prop :=
  ∃ c, request.contentType = some c ∧ includes c "application/json" = true

/-- The media type of a `Content-Type` header value: the text before the first
`;`, without blanks, in lower case. Parameters follow the first `;`, and media
types do not depend on case. -/
def mediaType (header : String) : String :=
  String.mk (((header.data.takeWhile (fun c => c != ';')).filter (fun c => c != ' ')).map
    Char.toLower)

/-- Whether a header value names a JSON content type: its media type is
`application/json`. -/
def isJsonMediaType (header : String) : Bool :=
  mediaType header == "application/json"

/-- The `error` member of a response body, `none` when the body has none. -/
def Response.errorField (r : Response) : Option String :=
  match r.body with
  | .failure _ error => error
  | _ => none

/-- The value of the instance's `Name` tag: that of the first tag whose key is
`Name`, `none` when the instance has no tag list or no such tag. -/
def nameTag (i : Instance) : Option String :=
  match i.Tags with
  | none => none
  | some tags =>
    match tags.find? (fun tag => tag.Key = "Name") with
    | none => none
    | some tag => some tag.Value

/-- All instances of a reply, reservation by reservation. -/
def reportedInstances (Reservations : List Reservation) : List Instance :=
  Reservations.flatMap (fun reservation => reservation.Instances)

/-! ## Sample inputs -/

/-- A runtime in production mode. -/
def productionRuntime : Runtime :=
  { NODE_ENV := some "production",
    nullDestructure :=
      { message := "Cannot destructure property 'action' of 'body' as it is null.",
        stack := "TypeError: Cannot destructure property 'action' of 'body' as it is null." } }

/-- A provider that reports no instance and accepts every lifecycle command. -/
def acceptingProvider : Provider :=
  { describeInstances := .ok [],
    startInstances := fun _ => .ok (),
    stopInstances := fun _ => .ok () }

/-- A provider whose listing is the given reservations. -/
def listingProvider (Reservations : List Reservation) : Provider :=
  { describeInstances := .ok Reservations,
    startInstances := fun _ => .ok (),
    stopInstances := fun _ => .ok () }

/-- The request `{action: "list"}`. -/
def listRequest : Request :=
  { contentType := some "application/json", body := some (.obj [("action", .str "list")]) }

/-- An instance tagged `Name=web-1`, running. -/
def web1 : Instance :=
  { InstanceId := "i-0a1", State := ⟨"running"⟩, InstanceType := "t2.micro",
    Tags := some [⟨"Name", "web-1"⟩] }

/-- An instance without tags, stopped. -/
def untagged : Instance :=
  { InstanceId := "i-0b2", State := ⟨"stopped"⟩, InstanceType := "t3.small", Tags := none }

/-- An instance whose `Name` tag has the empty string as its value. -/
def emptyNamed : Instance :=
  { InstanceId := "i-0c3", State := ⟨"running"⟩, InstanceType := "t2.micro",
    Tags := some [⟨"Name", ""⟩] }

/-- The request `{action: "start", instanceId: 5}`. -/
def numericIdRequest : Request :=
  { contentType := some "application/json",
    body := some (.obj [("action", .str "start"), ("instanceId", .num 5)]) }

/-- The request `{action: "stop", instanceId: "i-0a1"}`. -/
def stopRequest : Request :=
  { contentType := some "application/json",
    body := some (.obj [("action", .str "stop"), ("instanceId", .str "i-0a1")]) }

/-- A provider error. -/
def throttled : JsError :=
  { message := "Request limit exceeded.", stack := "Error: Request limit exceeded." }

/-- A provider that fails every command with the given error. -/
def failingProvider (e : JsError) : Provider :=
  { describeInstances := .error e,
    startInstances := fun _ => .error e,
    stopInstances := fun _ => .error e }

/-- A configuration with a key file that can be read; its content is not a
key, so `ssh.connect` throws on it. -/
def configured : ShellConfig :=
  { EC2_KEY_PATH := some "/keys/ec2.pem",
    readFileSync := fun _ => .ok "PRIVATE KEY",
    connect := fun _ _ _ =>
      .error ⟨"Cannot parse privateKey: Unsupported key format",
        "Error: Cannot parse privateKey: Unsupported key format"⟩,
    referenceError :=
      { message := "Upgrade is not defined", stack := "ReferenceError: Upgrade is not defined" },
    typeError :=
      { message := "Cannot read properties of undefined (reading 'PublicDnsName')",
        stack := "TypeError: Cannot read properties of undefined (reading 'PublicDnsName')" } }

/-- A configuration without `EC2_KEY_PATH`. -/
def unconfigured : ShellConfig :=
  { configured with
    EC2_KEY_PATH := none,
    readFileSync := fun _ => .error ⟨"ENOENT", "Error: ENOENT"⟩ }

/-- An error of the lookup or of the shell client. -/
def refused : JsError :=
  { message := "connection refused", stack := "Error: connection refused" }

/-- The request that carries a JSON body and a content type whose media type is
`text/plain`, with `application/json` in a parameter. -/
def plainTextStart : Request :=
  { contentType := some "text/plain; note=\"application/json\"",
    body := some (.obj [("action", .str "start"), ("instanceId", .str "i-0a1")]) }

/-- A bridge that relays bytes: lookup resolved, shell client connected with
the key read from the file, shell channel handed over. -/
def relaying (instanceId : String) (host : Option String) (privateKey : String) : Session :=
  { effects := [.upgrade, .lookup instanceId, .connect host "ec2-user" privateKey,
      .shell, .pipe],
    lookupPending := false, connectCalled := true, shellRequested := false,
    streamOpen := true }

/-! ## Auxiliary facts -/

theorem rejectsContentType_of_json (request : Request) (h : jsonContentType request) :
    rejectsContentType request.contentType = false := by
  obtain ⟨c, hc, hinc⟩ := h
  have hne : c ≠ "" := by
    intro h0
    subst h0
    revert hinc
    decide
  simp [rejectsContentType, hc, hinc, hne]

theorem getProp_null (key : String) : getProp .null key = none := rfl

theorem tryBlock_of_parsed (rt : Runtime) (ec2Client : Provider) (request : Request)
    (body : Json) (hct : jsonContentType request) (hbody : request.body = some body)
    (hnull : body ≠ .null) :
    tryBlock rt ec2Client request
      = dispatch ec2Client (getProp body "action") (getProp body "instanceId") := by
  have hrej := rejectsContentType_of_json request hct
  unfold tryBlock
  rw [hrej, hbody]
  cases body with
  | null => exact absurd rfl hnull
  | _ => rfl

theorem ne_null_of_getProp (body : Json) (key : String) (v : Json)
    (h : getProp body key = some v) : body ≠ .null := by
  intro h0
  subst h0
  simp [getProp] at h

theorem POST_eq_dispatch (rt : Runtime) (ec2Client : Provider) (request : Request)
    (body : Json) (hct : jsonContentType request) (hbody : request.body = some body)
    (hnull : body ≠ .null) :
    POST rt ec2Client request
      = match dispatch ec2Client (getProp body "action") (getProp body "instanceId") with
        | (calls, .ok response) => (calls, response)
        | (calls, .error e) => (calls, catchBlock rt e) := by
  unfold POST
  rw [tryBlock_of_parsed rt ec2Client request body hct hbody hnull]

/-! ## The instance-control endpoint -/

/-- C1: a `start` or `stop` request with a JSON content type whose `instanceId`
is absent, `null` or the empty string is answered with status 400 and the
message `Instance ID is required for <action> action`, and no provider call is
made. -/
theorem missing_instanceId_rejected (rt : Runtime) (ec2Client : Provider)
    (request : Request) (body : Json) (action : String)
    (hct : jsonContentType request) (hbody : request.body = some body)
    (haction : getProp body "action" = some (.str action))
    (hverb : action = "start" ∨ action = "stop")
    (hid : getProp body "instanceId" = none ∨ getProp body "instanceId" = some .null
      ∨ getProp body "instanceId" = some (.str "")) :
    POST rt ec2Client request
      = ([], ⟨400, .message ("Instance ID is required for " ++ action ++ " action")⟩) := by
  rw [POST_eq_dispatch rt ec2Client request body hct hbody
    (ne_null_of_getProp body "action" _ haction), haction]
  rcases hverb with h | h <;> subst h <;> rcases hid with h | h | h <;> rw [h] <;> rfl

/-- The scenario of C1: the body `{action: "stop"}` yields status 400 with the
message `Instance ID is required for stop action` and an empty call log. -/
theorem missing_instanceId_rejected_witness :
    POST productionRuntime acceptingProvider
        ⟨some "application/json", some (.obj [("action", .str "stop")])⟩
      = ([], ⟨400, .message "Instance ID is required for stop action"⟩) :=
  missing_instanceId_rejected productionRuntime acceptingProvider
    ⟨some "application/json", some (.obj [("action", .str "stop")])⟩
    (.obj [("action", .str "stop")]) "stop"
    ⟨"application/json", rfl, by decide⟩ rfl rfl (Or.inr rfl) (Or.inl rfl)

/-- For a parsed body other than `null`, a missing or unrecognised `action` is
answered with status 400 and no provider call. -/
theorem unrecognised_action_rejected_of_ne_null (rt : Runtime) (ec2Client : Provider)
    (request : Request) (body : Json)
    (hct : jsonContentType request) (hbody : request.body = some body)
    (hnull : body ≠ .null)
    (hlist : getProp body "action" ≠ some (.str "list"))
    (hstart : getProp body "action" ≠ some (.str "start"))
    (hstop : getProp body "action" ≠ some (.str "stop")) :
    (POST rt ec2Client request).1 = [] ∧ (POST rt ec2Client request).2.status = 400 := by
  rw [POST_eq_dispatch rt ec2Client request body hct hbody hnull]
  have h1 : strictEqStr (getProp body "action") "list" = false := by
    cases h : getProp body "action" with
    | none => rfl
    | some v => cases v <;> simp_all [strictEqStr]
  have h2 : strictEqStr (getProp body "action") "start" = false := by
    cases h : getProp body "action" with
    | none => rfl
    | some v => cases v <;> simp_all [strictEqStr]
  have h3 : strictEqStr (getProp body "action") "stop" = false := by
    cases h : getProp body "action" with
    | none => rfl
    | some v => cases v <;> simp_all [strictEqStr]
  unfold dispatch
  rw [h1, h2, h3]
  cases truthy (getProp body "action") <;> exact ⟨rfl, rfl⟩

/-- C2: the parsable body `null`, whose `action` is missing, is not answered
with status 400: destructuring it throws, the outer `catch` takes over and the
response has status 500 carrying the engine's `TypeError` message. No provider
call is made. -/
theorem null_body_yields_500 (rt : Runtime) (ec2Client : Provider) :
    POST rt ec2Client ⟨some "application/json", some .null⟩
      = ([], ⟨500, .failure rt.nullDestructure.message
          (if rt.NODE_ENV = some "development" then some rt.nullDestructure.stack else none)⟩)
    ∧ (POST rt ec2Client ⟨some "application/json", some .null⟩).2.status ≠ 400 := by
  constructor
  · rfl
  · show (500 : Nat) ≠ 400
    decide

/-- C3, as stated, fails: the header `text/plain; note="application/json"` is
not a JSON content type, its media type being `text/plain`, yet it passes the
test of line 16, which looks for the text `application/json` anywhere in the
value; the `start` request it carries reaches the provider and is answered
with status 200. -/
theorem loose_content_type_counterexample :
    plainTextStart.contentType = some "text/plain; note=\"application/json\""
    ∧ isJsonMediaType "text/plain; note=\"application/json\"" = false
    ∧ POST productionRuntime acceptingProvider plainTextStart
        = ([.StartInstances [.str "i-0a1"]], ⟨200, .message "Instance starting"⟩)
    ∧ (POST productionRuntime acceptingProvider plainTextStart).2.status ≠ 400
    ∧ (POST productionRuntime acceptingProvider plainTextStart).1 ≠ [] :=
  ⟨rfl, by decide, rfl, by decide, fun h => List.noConfusion h⟩

/-- C3, amended: when the content-type header is absent or its value does not
contain the text `application/json`, or when the body is not parsable JSON,
the `try` block returns normally (nothing is thrown) with a response of status
400, and no provider call is made. -/
theorem malformed_encoding_rejected (rt : Runtime) (ec2Client : Provider)
    (request : Request)
    (h : request.contentType = none
      ∨ (∃ c, request.contentType = some c ∧ includes c "application/json" = false)
      ∨ request.body = none) :
    (POST rt ec2Client request).1 = []
    ∧ (POST rt ec2Client request).2.status = 400
    ∧ tryBlock rt ec2Client request = ([], .ok (POST rt ec2Client request).2) := by
  have key : tryBlock rt ec2Client request
        = ([], .ok ⟨400, .message "Content-Type must be application/json"⟩)
      ∨ tryBlock rt ec2Client request = ([], .ok ⟨400, .message "Invalid JSON payload"⟩) := by
    unfold tryBlock
    rcases h with h | ⟨c, hc, hinc⟩ | h
    · left
      simp [h, rejectsContentType]
    · left
      simp [hc, hinc, rejectsContentType]
    · cases rejectsContentType request.contentType with
      | true => left; rfl
      | false => right; simp [h]
  unfold POST
  rcases key with k | k <;> rw [k] <;> exact ⟨rfl, rfl, rfl⟩

/-- A request with content type `text/plain` is answered with status 400 and
reaches no provider call, whatever its body. -/
theorem malformed_encoding_rejected_witness :
    includes "text/plain" "application/json" = false
    ∧ (POST productionRuntime acceptingProvider
        ⟨some "text/plain", some (.obj [("action", .str "list")])⟩).1 = []
    ∧ (POST productionRuntime acceptingProvider
        ⟨some "text/plain", some (.obj [("action", .str "list")])⟩).2.status = 400 :=
  ⟨by decide,
    (malformed_encoding_rejected productionRuntime acceptingProvider
      ⟨some "text/plain", some (.obj [("action", .str "list")])⟩
      (Or.inr (Or.inl ⟨"text/plain", rfl, by decide⟩))).1,
    (malformed_encoding_rejected productionRuntime acceptingProvider
      ⟨some "text/plain", some (.obj [("action", .str "list")])⟩
      (Or.inr (Or.inl ⟨"text/plain", rfl, by decide⟩))).2.1⟩

theorem listInstances_eq_map (Reservations : List Reservation) :
    listInstances Reservations = (reportedInstances Reservations).map describe := by
  unfold listInstances reportedInstances
  induction Reservations with
  | nil => rfl
  | cons r rs ih => simp [List.flatMap_cons, ih]

theorem length_reportedInstances (Reservations : List Reservation) :
    (reportedInstances Reservations).length
      = (Reservations.map (fun reservation => reservation.Instances.length)).sum := by
  unfold reportedInstances
  induction Reservations with
  | nil => rfl
  | cons r rs ih => simp [List.flatMap_cons, ih]

theorem displayName_eq (i : Instance) :
    displayName i
      = match nameTag i with
        | some v => if v = "" then "Unnamed" else v
        | none => "Unnamed" := by
  unfold displayName nameTag
  cases i.Tags with
  | none => rfl
  | some tags =>
    have hfun : (fun tag : Tag => tag.Key == "Name")
        = (fun tag : Tag => decide (tag.Key = "Name")) := by
      funext tag
      rfl
    simp only [Option.bind, hfun]
    cases List.find? (fun tag : Tag => decide (tag.Key = "Name")) tags <;> rfl

/-- C4, as stated, fails: an instance whose `Name` tag has the empty value is
listed under the placeholder `Unnamed`, not under the value of its `Name` tag. -/
theorem list_name_counterexample :
    nameTag emptyNamed = some ""
    ∧ POST productionRuntime (listingProvider [⟨[emptyNamed]⟩]) listRequest
        = ([.DescribeInstances],
            ⟨200, .instances [⟨"i-0c3", "running", "t2.micro", "Unnamed"⟩]⟩) :=
  ⟨by decide, rfl⟩

/-- C4, amended: a successful provider reply to a `list` request is answered
with status 200 and one descriptor per reported instance, in provider order;
the number of descriptors is the total number of reported instances; each
descriptor copies `id`, `state` and `type` from its instance, and its `name` is
the value of the `Name` tag when that value is not empty, and `Unnamed` when
the instance has no `Name` tag or the value of the tag is empty. -/
theorem list_descriptors (rt : Runtime) (ec2Client : Provider) (request : Request)
    (body : Json) (Reservations : List Reservation)
    (hct : jsonContentType request) (hbody : request.body = some body)
    (haction : getProp body "action" = some (.str "list"))
    (hreply : ec2Client.describeInstances = .ok Reservations) :
    POST rt ec2Client request
      = ([.DescribeInstances],
          ⟨200, .instances ((reportedInstances Reservations).map describe)⟩)
    ∧ ((reportedInstances Reservations).map describe).length
      = (Reservations.map (fun reservation => reservation.Instances.length)).sum
    ∧ ∀ i : Instance,
        (describe i).id = i.InstanceId ∧ (describe i).state = i.State.Name
        ∧ (describe i).type_ = i.InstanceType
        ∧ (nameTag i = none → (describe i).name = "Unnamed")
        ∧ (nameTag i = some "" → (describe i).name = "Unnamed")
        ∧ (∀ v, nameTag i = some v → v ≠ "" → (describe i).name = v) := by
  refine ⟨?_, ?_, ?_⟩
  · rw [POST_eq_dispatch rt ec2Client request body hct hbody
      (ne_null_of_getProp body "action" _ haction), haction]
    simp only [dispatch, hreply]
    rw [listInstances_eq_map]
    rfl
  · rw [List.length_map, length_reportedInstances]
  · intro i
    refine ⟨rfl, rfl, rfl, ?_, ?_, ?_⟩
    · intro h
      show displayName i = "Unnamed"
      rw [displayName_eq, h]
    · intro h
      show displayName i = "Unnamed"
      rw [displayName_eq, h]
      rfl
    · intro v h hv
      show displayName i = v
      rw [displayName_eq, h]
      show (if v = "" then "Unnamed" else v) = v
      rw [if_neg hv]

/-- The scenario of C4: a reply with an instance tagged `Name=web-1` (running)
and an untagged one (stopped) yields the two descriptors, in that order. -/
theorem list_descriptors_witness :
    POST productionRuntime (listingProvider [⟨[web1, untagged]⟩]) listRequest
      = ([.DescribeInstances],
          ⟨200, .instances [⟨"i-0a1", "running", "t2.micro", "web-1"⟩,
            ⟨"i-0b2", "stopped", "t3.small", "Unnamed"⟩]⟩) :=
  (list_descriptors productionRuntime (listingProvider [⟨[web1, untagged]⟩]) listRequest
    (.obj [("action", .str "list")]) [⟨[web1, untagged]⟩]
    ⟨"application/json", rfl, by decide⟩ rfl rfl rfl).1

theorem truthy_eq_false_iff (x : Option Json) :
    truthy x = false ↔ x = none ∨ x = some .null ∨ x = some (.bool false)
      ∨ x = some (.num 0) ∨ x = some (.str "") := by
  cases x with
  | none => simp [truthy]
  | some v => cases v <;> simp [truthy]

theorem dispatch_start_falsy (ec2Client : Provider) (instanceId : Option Json)
    (h : truthy instanceId = false) :
    dispatch ec2Client (some (.str "start")) instanceId
      = ([], .ok ⟨400, .message "Instance ID is required for start action"⟩) := by
  cases instanceId with
  | none => rfl
  | some v =>
    show (if (!(truthy (some v))) = true then _ else _) = _
    rw [h]
    rfl

theorem dispatch_stop_falsy (ec2Client : Provider) (instanceId : Option Json)
    (h : truthy instanceId = false) :
    dispatch ec2Client (some (.str "stop")) instanceId
      = ([], .ok ⟨400, .message "Instance ID is required for stop action"⟩) := by
  cases instanceId with
  | none => rfl
  | some v =>
    show (if (!(truthy (some v))) = true then _ else _) = _
    rw [h]
    rfl

theorem dispatch_start_truthy (ec2Client : Provider) (v : Json)
    (h : truthy (some v) = true) :
    dispatch ec2Client (some (.str "start")) (some v)
      = match ec2Client.startInstances [v] with
        | .error e => ([.StartInstances [v]], .error e)
        | .ok _ => ([.StartInstances [v]], .ok ⟨200, .message "Instance starting"⟩) := by
  show (if (!(truthy (some v))) = true then _ else _) = _
  rw [h]
  rfl

theorem dispatch_stop_truthy (ec2Client : Provider) (v : Json)
    (h : truthy (some v) = true) :
    dispatch ec2Client (some (.str "stop")) (some v)
      = match ec2Client.stopInstances [v] with
        | .error e => ([.StopInstances [v]], .error e)
        | .ok _ => ([.StopInstances [v]], .ok ⟨200, .message "Instance stopping"⟩) := by
  show (if (!(truthy (some v))) = true then _ else _) = _
  rw [h]
  rfl

theorem dispatch_list (ec2Client : Provider) (instanceId : Option Json) :
    dispatch ec2Client (some (.str "list")) instanceId
      = match ec2Client.describeInstances with
        | .error e => ([.DescribeInstances], .error e)
        | .ok Reservations =>
          ([.DescribeInstances], .ok ⟨200, .instances (listInstances Reservations)⟩) :=
  rfl

/-- C5, as stated, fails: the request `{action: "start", instanceId: 5}`, whose
`instanceId` is not a string, is not rejected; the start command is sent to the
provider with the identifier list `[5]` and the response has status 200. -/
theorem nonstring_instanceId_counterexample :
    POST productionRuntime acceptingProvider numericIdRequest
      = ([.StartInstances [.num 5]], ⟨200, .message "Instance starting"⟩)
    ∧ (POST productionRuntime acceptingProvider numericIdRequest).2.status ≠ 400
    ∧ (POST productionRuntime acceptingProvider numericIdRequest).1 ≠ [] :=
  ⟨rfl, by decide, fun h => List.noConfusion h⟩

/-- C5, amended: for a `start` or `stop` request the endpoint issues a provider
command only if `instanceId` is truthy. A request whose `instanceId` is falsy
(absent, `null`, `false`, `0` or the empty string) is rejected with status 400
and reaches no provider call; a request whose `instanceId` is any other value,
string or not, sends the lifecycle command carrying that value. -/
theorem lifecycle_command_iff_truthy (rt : Runtime) (ec2Client : Provider)
    (request : Request) (body : Json) (action : String)
    (hct : jsonContentType request) (hbody : request.body = some body)
    (haction : getProp body "action" = some (.str action))
    (hverb : action = "start" ∨ action = "stop") :
    (truthy (getProp body "instanceId") = false →
      POST rt ec2Client request
        = ([], ⟨400, .message ("Instance ID is required for " ++ action ++ " action")⟩))
    ∧ (truthy (getProp body "instanceId") = true →
      ∃ v, getProp body "instanceId" = some v
        ∧ (POST rt ec2Client request).1
          = [if action = "start" then .StartInstances [v] else .StopInstances [v]])
    ∧ ((POST rt ec2Client request).1 ≠ [] → truthy (getProp body "instanceId") = true)
    ∧ (truthy (getProp body "instanceId") = false ↔
        getProp body "instanceId" = none ∨ getProp body "instanceId" = some .null
        ∨ getProp body "instanceId" = some (.bool false)
        ∨ getProp body "instanceId" = some (.num 0)
        ∨ getProp body "instanceId" = some (.str "")) := by
  have hpost := POST_eq_dispatch rt ec2Client request body hct hbody
    (ne_null_of_getProp body "action" _ haction)
  rw [haction] at hpost
  have hfalsy : truthy (getProp body "instanceId") = false →
      POST rt ec2Client request
        = ([], ⟨400, .message ("Instance ID is required for " ++ action ++ " action")⟩) := by
    intro hf
    rw [hpost]
    rcases hverb with h | h <;> subst h
    · rw [dispatch_start_falsy ec2Client _ hf]
      rfl
    · rw [dispatch_stop_falsy ec2Client _ hf]
      rfl
  refine ⟨hfalsy, ?_, ?_, truthy_eq_false_iff _⟩
  · intro ht
    cases hid : getProp body "instanceId" with
    | none => rw [hid] at ht; exact absurd ht (by decide)
    | some v =>
      refine ⟨v, rfl, ?_⟩
      rw [hid] at ht
      rw [hpost, hid]
      rcases hverb with h | h <;> subst h
      · rw [dispatch_start_truthy ec2Client v ht]
        cases ec2Client.startInstances [v] <;> rfl
      · rw [dispatch_stop_truthy ec2Client v ht]
        cases ec2Client.stopInstances [v] <;> rfl
  · intro hne
    cases ht : truthy (getProp body "instanceId") with
    | true => rfl
    | false => exact absurd (congrArg Prod.fst (hfalsy ht)) hne

/-- A `start` request whose `instanceId` is `0` is rejected with status 400 and
no provider call. -/
theorem lifecycle_command_iff_truthy_witness :
    POST productionRuntime acceptingProvider
        ⟨some "application/json",
          some (.obj [("action", .str "start"), ("instanceId", .num 0)])⟩
      = ([], ⟨400, .message "Instance ID is required for start action"⟩) :=
  (lifecycle_command_iff_truthy productionRuntime acceptingProvider
    ⟨some "application/json",
      some (.obj [("action", .str "start"), ("instanceId", .num 0)])⟩
    (.obj [("action", .str "start"), ("instanceId", .num 0)]) "start"
    ⟨"application/json", rfl, by decide⟩ rfl rfl (Or.inl rfl)).1 rfl

theorem catchBlock_errorField (rt : Runtime) (e : JsError) :
    (catchBlock rt e).errorField
      = if rt.NODE_ENV = some "development" then some e.stack else none := rfl

/-- C6: when a request passes validation and the provider call fails with the
error `e`, the response has status 500 and its message is the message of `e`;
the `error` member carries the stack of `e` in development mode and is absent
in every other mode, in particular in production. -/
theorem provider_failure_reported (rt : Runtime) (ec2Client : Provider)
    (request : Request) (body : Json) (e : JsError)
    (hct : jsonContentType request) (hbody : request.body = some body)
    (hfail :
      (getProp body "action" = some (.str "list") ∧ ec2Client.describeInstances = .error e)
      ∨ (∃ v, getProp body "action" = some (.str "start")
          ∧ getProp body "instanceId" = some v ∧ truthy (some v) = true
          ∧ ec2Client.startInstances [v] = .error e)
      ∨ (∃ v, getProp body "action" = some (.str "stop")
          ∧ getProp body "instanceId" = some v ∧ truthy (some v) = true
          ∧ ec2Client.stopInstances [v] = .error e)) :
    (POST rt ec2Client request).2
      = ⟨500, .failure e.message
          (if rt.NODE_ENV = some "development" then some e.stack else none)⟩
    ∧ (rt.NODE_ENV = some "production" → (POST rt ec2Client request).2.errorField = none)
    ∧ ((POST rt ec2Client request).2.errorField ≠ none → rt.NODE_ENV = some "development") := by
  have hresp : (POST rt ec2Client request).2 = catchBlock rt e := by
    rcases hfail with ⟨ha, hp⟩ | ⟨v, ha, hid, ht, hp⟩ | ⟨v, ha, hid, ht, hp⟩
    · rw [POST_eq_dispatch rt ec2Client request body hct hbody
        (ne_null_of_getProp body "action" _ ha), ha, dispatch_list, hp]
    · rw [POST_eq_dispatch rt ec2Client request body hct hbody
        (ne_null_of_getProp body "action" _ ha), ha, hid, dispatch_start_truthy _ _ ht, hp]
    · rw [POST_eq_dispatch rt ec2Client request body hct hbody
        (ne_null_of_getProp body "action" _ ha), ha, hid, dispatch_stop_truthy _ _ ht, hp]
  rw [hresp, catchBlock_errorField]
  refine ⟨rfl, ?_, ?_⟩
  · intro hprod
    rw [hprod]
    rfl
  · intro hne
    by_cases hdev : rt.NODE_ENV = some "development"
    · exact hdev
    · rw [if_neg hdev] at hne
      exact absurd rfl hne

/-- In production mode a throttled `list` call is answered with status 500, the
provider's message and no `error` member. -/
theorem provider_failure_reported_witness :
    (POST productionRuntime (failingProvider throttled) listRequest).2
      = ⟨500, .failure "Request limit exceeded." none⟩ :=
  (provider_failure_reported productionRuntime (failingProvider throttled) listRequest
    (.obj [("action", .str "list")]) throttled
    ⟨"application/json", rfl, by decide⟩ rfl (Or.inl ⟨rfl, rfl⟩)).1

/-- C7: a `start` or `stop` request carrying a non-empty string `instanceId`
makes exactly one provider call, the matching lifecycle command with the
identifier list holding exactly that `instanceId`; the call log does not depend
on the provider and holds no lookup. When the provider accepts the command the
response is status 200 with `Instance starting` or `Instance stopping`. -/
theorem lifecycle_single_call (rt : Runtime) (ec2Client : Provider)
    (request : Request) (body : Json) (id : String)
    (hct : jsonContentType request) (hbody : request.body = some body)
    (hid : getProp body "instanceId" = some (.str id)) (hne : id ≠ "") :
    (getProp body "action" = some (.str "start") →
      (POST rt ec2Client request).1 = [.StartInstances [.str id]]
      ∧ (ec2Client.startInstances [.str id] = .ok () →
          (POST rt ec2Client request).2 = ⟨200, .message "Instance starting"⟩))
    ∧ (getProp body "action" = some (.str "stop") →
      (POST rt ec2Client request).1 = [.StopInstances [.str id]]
      ∧ (ec2Client.stopInstances [.str id] = .ok () →
          (POST rt ec2Client request).2 = ⟨200, .message "Instance stopping"⟩)) := by
  have ht : truthy (some (.str id)) = true := by
    simp [truthy, hne]
  have hpost := POST_eq_dispatch rt ec2Client request body hct hbody
    (ne_null_of_getProp body "instanceId" _ hid)
  rw [hid] at hpost
  constructor
  · intro ha
    rw [ha, dispatch_start_truthy _ _ ht] at hpost
    rw [hpost]
    constructor
    · cases ec2Client.startInstances [.str id] <;> rfl
    · intro hok
      rw [hok]
  · intro ha
    rw [ha, dispatch_stop_truthy _ _ ht] at hpost
    rw [hpost]
    constructor
    · cases ec2Client.stopInstances [.str id] <;> rfl
    · intro hok
      rw [hok]

/-- Stopping `i-0a1` sends exactly the stop command for `["i-0a1"]` and is
acknowledged with `Instance stopping`. -/
theorem lifecycle_single_call_witness :
    (POST productionRuntime acceptingProvider stopRequest).1
        = [.StopInstances [.str "i-0a1"]]
    ∧ (POST productionRuntime acceptingProvider stopRequest).2
        = ⟨200, .message "Instance stopping"⟩ :=
  ⟨((lifecycle_single_call productionRuntime acceptingProvider stopRequest
      (.obj [("action", .str "stop"), ("instanceId", .str "i-0a1")]) "i-0a1"
      ⟨"application/json", rfl, by decide⟩ rfl rfl (by decide)).2 rfl).1,
    ((lifecycle_single_call productionRuntime acceptingProvider stopRequest
      (.obj [("action", .str "stop"), ("instanceId", .str "i-0a1")]) "i-0a1"
      ⟨"application/json", rfl, by decide⟩ rfl rfl (by decide)).2 rfl).2 rfl⟩

/-! ## The remote-shell bridge -/

theorem GET_throws (env : ShellConfig) (request : ShellRequest) (key id : String)
    (hkey : env.EC2_KEY_PATH = some key) (hk : key ≠ "")
    (hid : request.instanceId = some id) (hne : id ≠ "") :
    GET env request = (.thrown env.referenceError, Session.idle) := by
  simp [GET, falsyStr, hkey, hk, hid, hne]

/-- C8: without `EC2_KEY_PATH` the request is answered with status 500 and the
body `EC2 key not configured`, whatever the identifier; with the key configured
and the `instanceId` parameter absent or empty it is answered with status 400
and `Instance ID required`. In both cases the bridge is left idle: no upgrade,
no provider lookup and no shell connect was made. -/
theorem shell_request_rejected (env : ShellConfig) (request : ShellRequest) :
    (env.EC2_KEY_PATH = none →
      GET env request = (.plain 500 "EC2 key not configured", Session.idle))
    ∧ (∀ key, env.EC2_KEY_PATH = some key → key ≠ "" →
        request.instanceId = none ∨ request.instanceId = some "" →
        GET env request = (.plain 400 "Instance ID required", Session.idle))
    ∧ Session.idle.effects = [] := by
  refine ⟨?_, ?_, rfl⟩
  · intro h
    simp [GET, falsyStr, h]
  · intro key hkey hk hid
    rcases hid with h | h <;> simp [GET, falsyStr, hkey, hk, h]

/-- Without a key the answer is 500 even when an identifier is given; with a
key and an empty identifier the answer is 400. -/
theorem shell_request_rejected_witness :
    GET unconfigured ⟨some "i-0a1"⟩ = (.plain 500 "EC2 key not configured", Session.idle)
    ∧ GET configured ⟨some ""⟩ = (.plain 400 "Instance ID required", Session.idle) :=
  ⟨(shell_request_rejected unconfigured ⟨some "i-0a1"⟩).1 rfl,
    (shell_request_rejected configured ⟨some ""⟩).2.1 "/keys/ec2.pem" rfl (by decide)
      (Or.inr rfl)⟩

theorem onLookupResolved_settled (env : ShellConfig) (s : Session) (data : InstanceData) :
    (onLookupResolved env s data).lookupPending = false := by
  unfold onLookupResolved
  split
  · rfl
  · split
    · rfl
    · split <;> rfl

theorem step_of_settled (env : ShellConfig) (s s1 : Session) (ev : Event)
    (hs : s.lookupPending = false) (hstep : step env s ev = some s1) :
    s1.lookupPending = false ∧ ∀ e, ev ≠ .lookupRejected e := by
  cases ev with
  | lookupResolved data => simp [step, hs] at hstep
  | lookupRejected err => simp [step, hs] at hstep
  | ready =>
    simp only [step] at hstep
    split at hstep
    · cases hstep
      exact ⟨hs, fun e h => Event.noConfusion h⟩
    · exact absurd hstep (by simp)
  | shellFailed err =>
    simp only [step] at hstep
    split at hstep
    · cases hstep
      exact ⟨hs, fun e h => Event.noConfusion h⟩
    · exact absurd hstep (by simp)
  | shellOpened =>
    simp only [step] at hstep
    split at hstep
    · cases hstep
      exact ⟨hs, fun e h => Event.noConfusion h⟩
    · exact absurd hstep (by simp)
  | streamClose =>
    simp only [step] at hstep
    split at hstep
    · cases hstep
      exact ⟨hs, fun e h => Event.noConfusion h⟩
    · exact absurd hstep (by simp)
  | sshError err =>
    simp only [step] at hstep
    split at hstep
    · cases hstep
      exact ⟨hs, fun e h => Event.noConfusion h⟩
    · exact absurd hstep (by simp)

theorem run_of_settled (env : ShellConfig) (evs : List Event) :
    ∀ (s s1 : Session), s.lookupPending = false → run env s evs = some s1 →
      ∀ e, Event.lookupRejected e ∉ evs := by
  induction evs with
  | nil =>
    intro s s1 _ _ e h
    cases h
  | cons ev rest ih =>
    intro s s1 hs hrun e hmem
    simp only [run] at hrun
    cases hstep : step env s ev with
    | none => rw [hstep] at hrun; cases hrun
    | some s2 =>
      rw [hstep] at hrun
      obtain ⟨hs2, hev⟩ := step_of_settled env s s2 ev hs hstep
      rcases List.mem_cons.mp hmem with h | h
      · exact hev e h.symm
      · exact ih s2 s1 hs2 hrun e h

theorem step_of_quiet (env : ShellConfig) (s : Session) (ev : Event)
    (h1 : s.lookupPending = false) (h2 : s.connectCalled = false)
    (h3 : s.shellRequested = false) (h4 : s.streamOpen = false) :
    step env s ev = none := by
  cases ev <;> simp [step, h1, h2, h3, h4]

theorem run_of_quiet (env : ShellConfig) (s s1 : Session) (evs : List Event)
    (h1 : s.lookupPending = false) (h2 : s.connectCalled = false)
    (h3 : s.shellRequested = false) (h4 : s.streamOpen = false)
    (hrun : run env s evs = some s1) : evs = [] ∧ s1 = s := by
  cases evs with
  | nil =>
    simp only [run] at hrun
    cases hrun
    exact ⟨rfl, rfl⟩
  | cons ev rest =>
    simp only [run, step_of_quiet env s ev h1 h2 h3 h4] at hrun
    cases hrun

/-- The callbacks as they are written: in a bridge that lines 29-34 had set up,
every course of events in which the lookup fails with `e` is that single
event, and it leaves the upgrade, the lookup, one write of the failure message
and the end of the socket, without any shell connect. -/
theorem lookup_failure_callback (env : ShellConfig) (id : String) (e : JsError)
    (evs : List Event) (s : Session)
    (hrun : run env (Session.started id) evs = some s)
    (hfail : Event.lookupRejected e ∈ evs) :
    evs = [.lookupRejected e]
    ∧ s.effects = [.upgrade, .lookup id,
        .socketWrite ("Failed to get instance data: " ++ e.message), .socketEnd]
    ∧ (∀ host username privateKey, Effect.connect host username privateKey ∉ s.effects) := by
  cases evs with
  | nil => cases hfail
  | cons ev rest =>
    simp only [run] at hrun
    cases hstep : step env (Session.started id) ev with
    | none => rw [hstep] at hrun; cases hrun
    | some s2 =>
      rw [hstep] at hrun
      cases ev with
      | lookupResolved data =>
        have hs2 : s2.lookupPending = false := by
          simp only [step, Session.started, if_true, Option.some.injEq] at hstep
          rw [← hstep]
          exact onLookupResolved_settled env _ data
        have hno := run_of_settled env rest s2 s hs2 hrun e
        rcases List.mem_cons.mp hfail with h | h
        · cases h
        · exact absurd h hno
      | lookupRejected err =>
        simp only [step, Session.started, if_true, Option.some.injEq] at hstep
        subst hstep
        obtain ⟨hrest, hs⟩ := run_of_quiet env _ s rest rfl rfl rfl rfl hrun
        subst hrest
        have he : e = err := by
          rcases List.mem_cons.mp hfail with h | h
          · cases h
            rfl
          · cases h
        subst he
        subst hs
        refine ⟨rfl, rfl, ?_⟩
        intro host username privateKey hmem
        simp [onLookupFailure] at hmem
      | ready => simp [step, Session.started] at hstep
      | shellFailed err => simp [step, Session.started] at hstep
      | shellOpened => simp [step, Session.started] at hstep
      | streamClose => simp [step, Session.started] at hstep
      | sshError err => simp [step, Session.started] at hstep

/-- C9: a request with the key configured and an identifier present does not
open a shell session. `GET` throws the `ReferenceError` of line 29 and leaves
the idle bridge: no upgrade, no lookup, no write to a socket and no end of a
socket, and a failure of the lookup cannot follow, no lookup having been sent. -/
theorem accepted_request_throws :
    GET configured ⟨some "i-0a1"⟩ = (.thrown configured.referenceError, Session.idle)
    ∧ (GET configured ⟨some "i-0a1"⟩).2.effects = []
    ∧ run configured (GET configured ⟨some "i-0a1"⟩).2 [.lookupRejected refused] = none :=
  ⟨rfl, rfl, rfl⟩

theorem onStreamClose_effects (s : Session) :
    (onStreamClose s).effects = s.effects ++ [.sshEnd, .socketEnd] := rfl

theorem onSshError_effects (s : Session) (err : JsError) :
    (onSshError s err).effects
      = s.effects ++ [.socketWrite ("SSH Error: " ++ err.message), .socketEnd]
    ∧ (Effect.sshEnd ∈ (onSshError s err).effects ↔ Effect.sshEnd ∈ s.effects) := by
  refine ⟨rfl, ?_⟩
  simp [onSshError]

/-- The relaying bridge is the one the callbacks build from the bridge of
lines 29-34 when the lookup resolves, the key is read, `ssh.connect` returns,
the client becomes ready and the shell channel is handed over. -/
theorem relaying_reached (env : ShellConfig) (instanceId privateKey : String)
    (host : Option String)
    (hread : env.readFileSync env.EC2_KEY_PATH = .ok privateKey)
    (hconnect : env.connect host "ec2-user" privateKey = .ok ()) :
    run env (Session.started instanceId)
        [.lookupResolved ⟨some ⟨host⟩⟩, .ready, .shellOpened]
      = some (relaying instanceId host privateKey) := by
  simp [run, step, Session.started, onLookupResolved, hread, hconnect, relaying]

/-- C10: in a bridge that relays bytes, the closing of the shell channel runs
the handler of lines 58-61, which ends the SSH client and the socket; an error
of the shell client runs the handler of lines 65-68, which writes `SSH Error: `
followed by the message and ends the socket, and after which the SSH client
has not been ended. -/
theorem error_handler_keeps_client (env : ShellConfig) (instanceId : String)
    (host : Option String) (privateKey : String) (err : JsError) :
    step env (relaying instanceId host privateKey) .streamClose
      = some (onStreamClose (relaying instanceId host privateKey))
    ∧ (onStreamClose (relaying instanceId host privateKey)).effects
      = [.upgrade, .lookup instanceId, .connect host "ec2-user" privateKey, .shell, .pipe,
          .sshEnd, .socketEnd]
    ∧ step env (relaying instanceId host privateKey) (.sshError err)
      = some (onSshError (relaying instanceId host privateKey) err)
    ∧ (onSshError (relaying instanceId host privateKey) err).effects
      = [.upgrade, .lookup instanceId, .connect host "ec2-user" privateKey, .shell, .pipe,
          .socketWrite ("SSH Error: " ++ err.message), .socketEnd]
    ∧ Effect.socketEnd ∈ (onSshError (relaying instanceId host privateKey) err).effects
    ∧ Effect.sshEnd ∉ (onSshError (relaying instanceId host privateKey) err).effects := by
  refine ⟨rfl, rfl, rfl, rfl, ?_, ?_⟩
  · simp [onSshError, relaying]
  · simp [onSshError, relaying]

/-! ## The activity log -/

theorem addLog_eq_cons (timestamp message : String) (type_ : Option String)
    (prevLogs : List LogEntry) :
    addLog timestamp message type_ prevLogs
      = { message := message, type_ := type_.getD "info", timestamp := timestamp }
          :: prevLogs.take 99 := rfl

theorem addLog_of_take (c : LogCall) (all : List LogEntry) :
    addLog c.timestamp c.message c.type_ (all.take 100) = (c.entry :: all).take 100 := by
  rw [addLog_eq_cons, List.take_take]
  rfl

theorem foldl_addLog (calls : List LogCall) :
    ∀ all : List LogEntry,
      calls.foldl (fun logs c => addLog c.timestamp c.message c.type_ logs) (all.take 100)
        = ((calls.map LogCall.entry).reverse ++ all).take 100 := by
  induction calls with
  | nil =>
    intro all
    rfl
  | cons c cs ih =>
    intro all
    rw [List.foldl_cons, addLog_of_take, ih (c.entry :: all), List.map_cons,
      List.reverse_cons, List.append_assoc]
    rfl

/-- C11: `addLog` puts the new entry first, followed by the previous entries in
their previous order, and truncates to `min (previous length + 1) 100` entries.
Starting from the empty log, after any sequence of calls the log has at most
100 entries and is the list of all entries added, newest first, cut after the
100 most recent: only the oldest entries are dropped. -/
theorem addLog_keeps_most_recent (timestamp message : String) (type_ : Option String)
    (prevLogs : List LogEntry) (calls : List LogCall) :
    addLog timestamp message type_ prevLogs
      = { message := message, type_ := type_.getD "info", timestamp := timestamp }
          :: prevLogs.take 99
    ∧ (addLog timestamp message type_ prevLogs).length = min (prevLogs.length + 1) 100
    ∧ (logsAfter calls).length ≤ 100
    ∧ logsAfter calls = ((calls.map LogCall.entry).reverse).take 100 := by
  have hall : logsAfter calls = ((calls.map LogCall.entry).reverse).take 100 := by
    have h := foldl_addLog calls []
    rw [List.append_nil] at h
    exact h
  refine ⟨addLog_eq_cons timestamp message type_ prevLogs, ?_, ?_, hall⟩
  · rw [addLog_eq_cons, List.length_cons, List.length_take]
    omega
  · rw [hall, List.length_take]
    omega

end InstanceHub
